import Mathlib

/-!
Verification of the NetAdapterTool engine: a shallow embedding of the
adapter-discovery and settings-application code in `network_adapter.py`,
`network_settings.py` and the convergence-polling part of `gui.py`.

External effects are made explicit: the PowerShell command runner is a
function argument `run : String → Bool × String` (success flag, captured
output), the per-candidate interpreter environment is a list of `Cand`
records, and the WMI session is an `Except`-valued data source.  String
truthiness follows Python: the empty string is falsy.
-/

namespace NetAdapterTool

/-- Python `x or y` on strings: `y` when `x` is empty (falsy), else `x`. -/
def pyOrS (a b : String) : String := if a = "" then b else a

/-- Python `x or y` where `x` is an optional string: `y` when `x` is
`None` or empty, else the value of `x`. -/
def optTruthyOr (o : Option String) (d : String) : String :=
  match o with
  | some s => if s = "" then d else s
  | none => d

/-- Python `str.strip()`: drop leading and trailing whitespace.  Defined
on the character data so that it reduces in the kernel. -/
def pyStrip (s : String) : String :=
  String.mk (((s.data.dropWhile Char.isWhitespace).reverse.dropWhile Char.isWhitespace).reverse)

/-- Python `str.lower()` (ASCII case folding, which is all the source
compares). -/
def pyLower (s : String) : String :=
  String.mk (s.data.map Char.toLower)

/-- Helper for `pySplitChar`: split the remaining characters at every
separator, `acc` holding the current (reversed) segment. -/
def pySplitCharAux (sep : Char) : List Char → List Char → List String
  | [], acc => [String.mk acc.reverse]
  | c :: cs, acc =>
    if c = sep then String.mk acc.reverse :: pySplitCharAux sep cs []
    else pySplitCharAux sep cs (c :: acc)

/-- Python `str.split(sep)` for a one-character separator (empty segments
kept, `""` splits to `[""]`), defined on the data so that it reduces in
the kernel. -/
def pySplitChar (sep : Char) (s : String) : List String :=
  pySplitCharAux sep s.data []

/-- Python substring membership `needle in hay` on strings. -/
def strContains (hay needle : String) : Bool :=
  decide (needle.data <:+: hay.data)

/-- The apostrophe character, U+0027. -/
def aposChar : Char := Char.ofNat 39

/-- The single-character string holding an apostrophe. -/
def aposStr : String := String.singleton aposChar

/-- Replace every occurrence of a single character by a character list;
`str.replace` for a one-character needle, defined on the data so that it
reduces in the kernel. -/
def replaceChar (target : Char) (repl : List Char) (s : String) : String :=
  String.mk (s.data.flatMap (fun c => if c = target then repl else [c]))

/-- The escaping applied before interpolating a value into a PowerShell
command: first every double quote, then every apostrophe, gets a backtick
prefix (the two sequential `str.replace` calls of the source; both
needles are single characters). -/
def escapePs (s : String) : String :=
  replaceChar aposChar ['`', aposChar] (replaceChar '"' ['`', '"'] s)

/-- Hex digit test used by the MAC-address shape predicate. -/
def isHexDigitChar (c : Char) : Bool :=
  c.isDigit || ( 'A' ≤ c && c ≤ 'F' ) || ( 'a' ≤ c && c ≤ 'f' )

/-- Six groups of two hex digits. -/
def mac_groups_ok (parts : List String) : Bool :=
  parts.length == 6 && parts.all (fun p => p.length == 2 && p.data.all isHexDigitChar)

/-- A MAC-address shape: six hex-digit pairs separated by `-` or by `:`.
This predicate formalises the "macAddress matches a MAC-address shape"
wording of the specification; the source code never checks it. -/
def matchesMacShape (s : String) : Bool :=
  mac_groups_ok (pySplitChar '-' s) || mac_groups_ok (pySplitChar ':' s)

/-!
## Command Runner

`network_adapter.NetworkAdapter._run_powershell_safe` and
`network_settings.NetworkSettings._run_powershell_command` both loop over
the same ordered list of four interpreter candidates
(`powershell` on PATH, then three fixed install paths).  A candidate is
modelled by whether its path exists on disk (checked only for the
non-first candidates, exactly as in the source) and by what running it
does: return a process result, raise
`TimeoutExpired`/`FileNotFoundError`/`OSError` (loop continues), or raise
any other exception (reported only on the last candidate).
-/

/-- Outcome of attempting one interpreter candidate. -/
inductive CandOutcome where
  | ran (returncode : Int) (stdout : String) (stderr : String)
  | timeoutOrMissing
  | otherError (msg : String)
deriving DecidableEq

/-- One interpreter candidate: on-disk existence plus its run outcome. -/
structure Cand where
  onDisk : Bool
  outcome : CandOutcome
deriving DecidableEq

/-- Loop body of `NetworkSettings._run_powershell_command` over the
remaining candidates; the flag records whether the head of the list is
the first candidate (`powershell` from PATH, whose on-disk existence is
never checked and whose non-zero exit falls through to the next
candidate). -/
def run_ps_loop_settings : Bool → List Cand → Bool × String
  | _, [] => (false, "未找到可用的PowerShell")
  | isFirst, c :: rest =>
    if !isFirst && !c.onDisk then run_ps_loop_settings false rest
    else
      match c.outcome with
      | CandOutcome.ran rc out err =>
        if rc = 0 then (true, pyStrip out)
        else if isFirst then run_ps_loop_settings false rest
        else (false, pyOrS (pyStrip err) (pyOrS (pyStrip out) "PowerShell命令执行失败"))
      | CandOutcome.timeoutOrMissing => run_ps_loop_settings false rest
      | CandOutcome.otherError m =>
        if rest = [] then (false, "PowerShell命令执行异常: " ++ m)
        else run_ps_loop_settings false rest

/-- Loop body of `NetworkAdapter._run_powershell_safe`: identical control
flow, but on a later candidate failing its error message is
`result.stderr.strip() or "PowerShell命令执行失败"` — the output stream is
never consulted. -/
def run_ps_loop_safe : Bool → List Cand → Bool × String
  | _, [] => (false, "未找到可用的PowerShell")
  | isFirst, c :: rest =>
    if !isFirst && !c.onDisk then run_ps_loop_safe false rest
    else
      match c.outcome with
      | CandOutcome.ran rc out err =>
        if rc = 0 then (true, pyStrip out)
        else if isFirst then run_ps_loop_safe false rest
        else (false, pyOrS (pyStrip err) "PowerShell命令执行失败")
      | CandOutcome.timeoutOrMissing => run_ps_loop_safe false rest
      | CandOutcome.otherError m =>
        if rest = [] then (false, "PowerShell命令执行异常: " ++ m)
        else run_ps_loop_safe false rest

/-- `NetworkSettings._run_powershell_command` over its four candidates. -/
def run_powershell_command (c0 c1 c2 c3 : Cand) : Bool × String :=
  run_ps_loop_settings true [c0, c1, c2, c3]

/-- `NetworkAdapter._run_powershell_safe` over its four candidates. -/
def run_powershell_safe (c0 c1 c2 c3 : Cand) : Bool × String :=
  run_ps_loop_safe true [c0, c1, c2, c3]

/-!
## Settings Applier (`NetworkSettings.set_adapter_speed_duplex`)

The command runner is abstracted as `run`; alongside the `(ok, message)`
result we return the list of commands actually issued, so that
"issues zero external commands" is a statement about the result.
-/

/-- First write attempt: select the property by registry keyword. -/
def set_cmd_registry (safe_name safe_val : String) : String :=
  "Set-NetAdapterAdvancedProperty -Name \"" ++ safe_name ++
    "\" -RegistryKeyword \"*SpeedDuplex\" -DisplayValue \"" ++ safe_val ++ "\""

/-- Second write attempt: select the property by display-name wildcard. -/
def set_cmd_display (safe_name safe_val : String) : String :=
  "Set-NetAdapterAdvancedProperty -Name \"" ++ safe_name ++
    "\" -DisplayName \"*Speed*Duplex*\" -DisplayValue \"" ++ safe_val ++ "\""

/-- Diagnostic query listing speed/duplex-related advanced properties. -/
def tips_query_cmd (safe_name : String) : String :=
  "Get-NetAdapterAdvancedProperty -Name \"" ++ safe_name ++
    "\" | Where-Object \x7b$_.RegistryKeyword -like \"*Speed*\" -or $_.DisplayName -like \"*Duplex*\" -or $_.DisplayName -like \"*Speed*\"\x7d | " ++
    "Select-Object -Property DisplayName, RegistryKeyword, DisplayValue | Format-Table -AutoSize"

/-- `NetworkSettings.set_adapter_speed_duplex`.  Returns the
`(ok, message)` pair together with the list of external commands issued,
in order. -/
def set_adapter_speed_duplex (is_admin : Bool) (adapter_name speed_duplex : String)
    (run : String → Bool × String) : (Bool × String) × List String :=
  if !is_admin then ((false, "需要管理员权限才能修改网络设置"), [])
  else if adapter_name = "" || pyStrip adapter_name = "" then
    ((false, "适配器名称不能为空"), [])
  else if speed_duplex = "" || pyStrip speed_duplex = "" then
    ((false, "速度双工设置不能为空"), [])
  else
    let safe_adapter_name := escapePs adapter_name
    let safe_speed_duplex := escapePs speed_duplex
    let cmd1 := set_cmd_registry safe_adapter_name safe_speed_duplex
    let cmd2 := set_cmd_display safe_adapter_name safe_speed_duplex
    let r1 := run cmd1
    if r1.1 then
      ((true, "成功设置 " ++ adapter_name ++ " 的网络设置为 " ++ speed_duplex), [cmd1])
    else
      let r2 := run cmd2
      if r2.1 then
        ((true, "成功设置 " ++ adapter_name ++ " 的网络设置为 " ++ speed_duplex), [cmd1, cmd2])
      else
        let tq := tips_query_cmd safe_adapter_name
        let tips := (run tq).2
        let hint :=
          if tips ≠ "" then "\n\n可用的相关高级属性如下(供排查):\n" ++ tips else ""
        ((false, "设置失败: " ++ r2.2 ++ hint), [cmd1, cmd2, tq])

/-!
## Adapter restart (`NetworkSettings.restart_adapter`)
-/

/-- The disable-phase command built by `restart_adapter`. -/
def disable_cmd (adapter_name : String) : String :=
  "Disable-NetAdapter -Name \"" ++ adapter_name ++ "\" -Confirm:$false"

/-- The enable-phase command built by `restart_adapter`. -/
def enable_cmd (adapter_name : String) : String :=
  "Enable-NetAdapter -Name \"" ++ adapter_name ++ "\" -Confirm:$false"

/-- `NetworkSettings.restart_adapter`: disable then enable, with
phase-specific failure messages. -/
def restart_adapter (is_admin : Bool) (adapter_name : String)
    (run : String → Bool × String) : Bool × String :=
  if !is_admin then (false, "需要管理员权限才能重启网络适配器")
  else
    let rd := run (disable_cmd adapter_name)
    if !rd.1 then (false, "禁用适配器失败: " ++ rd.2)
    else
      let re := run (enable_cmd adapter_name)
      if re.1 then (true, "成功重启适配器 " ++ adapter_name)
      else (false, "启用适配器失败: " ++ re.2)

/-!
## State read (`NetworkSettings.get_current_speed_duplex`)
-/

/-- First read attempt: select the property by registry keyword. -/
def current_query_registry (safe_name : String) : String :=
  "Get-NetAdapterAdvancedProperty -Name \"" ++ safe_name ++
    "\" -RegistryKeyword \"*SpeedDuplex\" | Select-Object -ExpandProperty DisplayValue"

/-- Second read attempt: select the property by display-name wildcard. -/
def current_query_display (safe_name : String) : String :=
  "Get-NetAdapterAdvancedProperty -Name \"" ++ safe_name ++
    "\" -DisplayName \"*Speed*Duplex*\" | Select-Object -ExpandProperty DisplayValue"

/-- `NetworkSettings.get_current_speed_duplex`, with the list of commands
issued returned alongside the value. -/
def get_current_speed_duplex (adapter_name : String)
    (run : String → Bool × String) : String × List String :=
  if adapter_name = "" || pyStrip adapter_name = "" then ("Unknown", [])
  else
    let safe := escapePs adapter_name
    let cmd1 := current_query_registry safe
    let cmd2 := current_query_display safe
    let r1 := run cmd1
    if r1.1 && pyStrip r1.2 ≠ "" then (pyStrip r1.2, [cmd1])
    else
      let r2 := run cmd2
      if r2.1 && pyStrip r2.2 ≠ "" then (pyStrip r2.2, [cmd1, cmd2])
      else ("Unknown", [cmd1, cmd2])

/-!
## Adapter Enumerator (`NetworkAdapter.get_all_adapters`)

The primary strategy runs `Get-NetAdapter ... | ConvertTo-Json` and
decodes the output.  We do not model JSON text: `parsed` stands for the
outcome of `json.loads` followed by the single-object-to-list
normalisation — `none` when decoding raised, `some items` otherwise.
The three per-adapter detail resolvers (`_get_adapter_ip_fast`,
`_get_adapter_speed_fast`, `_get_adapter_duplex_fast`) are passed as
functions from alias to resolved string.  The WMI fallback source is an
`Except`: `error` when `_create_wmi_connection` raised; `detailOk`
models whether `_get_adapter_details` succeeded for a given COM object
(on failure that adapter is dropped, as in the source).
-/

/-- One decoded JSON record from `Get-NetAdapter`; every field optional. -/
structure PsItem where
  Name : Option String
  InterfaceDescription : Option String
  MacAddress : Option String
  Status : Option String
  LinkSpeed : Option String
deriving DecidableEq

/-- One WMI `Win32_NetworkAdapter` COM object, restricted to the fields
the source reads. -/
structure WmiAdapter where
  PhysicalAdapter : Bool
  Name : Option String
  MACAddress : Option String
  NetConnectionID : Option String
  DeviceID : Option String
  NetConnectionStatus : Option String
deriving DecidableEq

/-- The adapter dictionary built by `get_all_adapters`. -/
structure AdapterInfo where
  name : String
  device_id : String
  mac_address : String
  «alias» : String
  ip_address : String
  status : Option String
  speed : String
  duplex : String
deriving DecidableEq

/-- Primary-strategy processing of one decoded item (the loop body at
`network_adapter.py` lines 197-220): `none` means the item is skipped. -/
def ps_item_to_adapter (ipOf speedOf duplexOf : String → String)
    (item : PsItem) : Option AdapterInfo :=
  let name := pyStrip (optTruthyOr item.InterfaceDescription (optTruthyOr item.Name ""))
  let «alias» := pyStrip (item.Name.getD "")
  let mac := pyStrip (item.MacAddress.getD "")
  let speed := pyStrip (optTruthyOr item.LinkSpeed "Unknown")
  if «alias» = "" || name = "" || mac = "" then none
  else if strContains name "Virtual" || strContains name "Loopback" then none
  else some {
    name := name
    device_id := «alias»
    mac_address := mac
    «alias» := «alias»
    ip_address := ipOf «alias»
    status := item.Status
    speed := if speed ≠ "" then speed else speedOf «alias»
    duplex := duplexOf «alias» }

/-- The adapter list produced by the primary (PowerShell JSON) strategy;
empty whenever the command failed, produced no output, or the JSON could
not be decoded. -/
def primary_adapters (ipOf speedOf duplexOf : String → String)
    (psSuccess : Bool) (psOutput : String)
    (parsed : Option (List PsItem)) : List AdapterInfo :=
  if psSuccess && psOutput ≠ "" then
    match parsed with
    | some items => items.filterMap (ps_item_to_adapter ipOf speedOf duplexOf)
    | none => []
  else []

/-- The WMI filter at `network_adapter.py` lines 240-246. -/
def wmi_accept (a : WmiAdapter) : Bool :=
  a.PhysicalAdapter && (a.Name.getD "") ≠ "" && (a.MACAddress.getD "") ≠ ""
    && !(strContains (a.Name.getD "") "Virtual")
    && !(strContains (a.Name.getD "") "Loopback")

/-- `NetworkAdapter._get_adapter_details` for an accepted COM object. -/
def wmi_adapter_details (ipOf speedOf duplexOf : String → String)
    (a : WmiAdapter) : AdapterInfo :=
  let connection_id := optTruthyOr a.NetConnectionID (a.Name.getD "")
  { name := a.Name.getD ""
    device_id := a.DeviceID.getD ""
    mac_address := a.MACAddress.getD ""
    «alias» := connection_id
    ip_address := ipOf connection_id
    status := a.NetConnectionStatus
    speed := speedOf connection_id
    duplex := duplexOf connection_id }

/-- The secondary (WMI session) enumeration strategy, lines 232-265. -/
def wmi_fallback (ipOf speedOf duplexOf : String → String)
    (wmiConn : Except String (List WmiAdapter))
    (detailOk : WmiAdapter → Bool) : Except String (List AdapterInfo) :=
  match wmiConn with
  | Except.error e => Except.error ("WMI连接失败，已重试2次: " ++ e)
  | Except.ok lst =>
    Except.ok ((lst.filter wmi_accept).filterMap
      (fun a => if detailOk a then some (wmi_adapter_details ipOf speedOf duplexOf a) else none))

/-- `NetworkAdapter.get_all_adapters`: return the primary list when it is
non-empty, otherwise fall back to the WMI strategy. -/
def get_all_adapters (ipOf speedOf duplexOf : String → String)
    (psSuccess : Bool) (psOutput : String) (parsed : Option (List PsItem))
    (wmiConn : Except String (List WmiAdapter))
    (detailOk : WmiAdapter → Bool) : Except String (List AdapterInfo) :=
  let adapters := primary_adapters ipOf speedOf duplexOf psSuccess psOutput parsed
  if adapters ≠ [] then Except.ok adapters
  else wmi_fallback ipOf speedOf duplexOf wmiConn detailOk

/-- `NetworkAdapter.get_adapter_by_name`, applied to the list produced by
`get_all_adapters`: first adapter whose lower-cased name contains the
lower-cased query. -/
def get_adapter_by_name (adapters : List AdapterInfo) (name : String) : Option AdapterInfo :=
  adapters.find? (fun adapter => strContains (pyLower adapter.name) (pyLower name))

/-!
## Option Resolver (`NetworkAdapter.get_speed_duplex_options`)
-/

/-- The fixed default option list `DEFAULT_SPEED_DUPLEX_OPTIONS`. -/
def DEFAULT_SPEED_DUPLEX_OPTIONS : List String :=
  ["自动侦测", "10 Mbps 半双工", "10 Mbps 全双工",
   "100 Mbps 半双工", "100 Mbps 全双工", "1.0 Gbps 全双工"]

/-- The valid-display-values query built by `get_speed_duplex_options`. -/
def options_query_cmd (adapter_name : String) : String :=
  "Get-NetAdapterAdvancedProperty -Name \"" ++ escapePs adapter_name ++
    "\" -RegistryKeyword \"*SpeedDuplex\" -ErrorAction SilentlyContinue | Select-Object -ExpandProperty ValidDisplayValues"

/-- `[line.strip() for line in result.split(chr(10)) if line.strip()]`. -/
def parse_option_lines (result : String) : List String :=
  ((pySplitChar (Char.ofNat 10) result).map (fun line => pyStrip line)).filter (fun line => line ≠ "")

/-- The early-return region of `get_speed_duplex_options`: the parsed
option list when the name is truthy and the query succeeded with truthy
output, `[]` otherwise. -/
def options_attempt (adapter_name : String)
    (run : String → Bool × String) : List String :=
  if adapter_name ≠ "" then
    let res := run (options_query_cmd adapter_name)
    if res.1 && res.2 ≠ "" then parse_option_lines res.2 else []
  else []

/-- `NetworkAdapter.get_speed_duplex_options`.  `adapter_name = ""` also
covers the Python `None` default (both are falsy, skipping the query). -/
def get_speed_duplex_options (adapter_name : String)
    (run : String → Bool × String) (use_fallback : Bool) : List String :=
  let attempt := options_attempt adapter_name run
  if attempt ≠ [] then attempt
  else if use_fallback then DEFAULT_SPEED_DUPLEX_OPTIONS else []

/-!
## Convergence Poller (`gui.NetworkAdapterGUI`)

The dynamic-refresh flow after a successful apply:
`on_operation_finished` (lines 844-877) arms the poller and schedules the
first refresh; every successful refresh calls
`_maybe_continue_dynamic_refresh` (lines 681-718), which reads the
current display value and either declares convergence, schedules one more
refresh, or gives up.  The timer-driven recursion is modelled as a fold
over the list of state reads, one per poll tick; a read of `none` models
`get_current_speed_duplex` raising.  The `phase` field is an observer
recording which branch last fired, mirroring the state machine of the
specification; it does not influence control flow.
-/

/-- Phases of the convergence state machine. -/
inductive PollerPhase where
  | idle
  | awaitingFirst
  | awaitingSecond
  | converged
  | gaveUpConverging
  | aborted
  | applyFailed
deriving DecidableEq

/-- The GUI state touched by the dynamic-refresh flow. -/
structure PollerState where
  active : Bool
  targetAlias : String
  targetValue : String
  attemptIdx : Nat
  pendingSuccess : Option String
  successShown : Bool
  failureShown : Bool
  statusMsg : String
  phase : PollerPhase
deriving DecidableEq

/-- The fields as initialised in `NetworkAdapterGUI.__init__`. -/
def init_poller_state : PollerState :=
  { active := false
    targetAlias := ""
    targetValue := ""
    attemptIdx := 0
    pendingSuccess := none
    successShown := false
    failureShown := false
    statusMsg := ""
    phase := PollerPhase.idle }

/-- One element of the `status_data` list emitted by the worker thread. -/
structure StatusEntry where
  adapter_name : Option String
  new_status : Option String
deriving DecidableEq

/-- `NetworkAdapterGUI.on_operation_finished`: on success, stash the
pending success message, derive the target alias/value (overridden by the
first `status_data` entry when its fields are truthy and the status is
not `Unknown`), arm the poller and reset the attempt index; on failure,
report the failure. -/
def start_polling (success : Bool) (message : String)
    (status_data : List StatusEntry) (comboAlias comboTarget : String)
    (s : PollerState) : PollerState :=
  if success then
    let chosen :=
      match status_data with
      | [] => (comboAlias, comboTarget)
      | maybe :: _ =>
        let a :=
          match maybe.adapter_name with
          | some v => if v ≠ "" then v else comboAlias
          | none => comboAlias
        let t :=
          match maybe.new_status with
          | some v => if v ≠ "" && v ≠ "Unknown" then v else comboTarget
          | none => comboTarget
        (a, t)
    { s with
      statusMsg := "设置应用成功，正在刷新状态..."
      pendingSuccess := some message
      active := true
      targetAlias := chosen.1
      targetValue := chosen.2
      attemptIdx := 0
      phase := PollerPhase.awaitingFirst }
  else
    { s with
      statusMsg := "设置应用失败"
      failureShown := true
      phase := PollerPhase.applyFailed }

/-- `NetworkAdapterGUI._maybe_continue_dynamic_refresh` at one poll tick.
`readRes` is the result of `get_current_speed_duplex` for the target
alias (`none` when it raised, absorbed as "not yet converged"). -/
def pollTick (s : PollerState) (readRes : Option String) : PollerState :=
  if s.active = false then s
  else if s.targetAlias = "" || s.targetValue = "" then
    { s with active := false, phase := PollerPhase.aborted }
  else
    let isMatch :=
      match readRes with
      | some current =>
        current ≠ "" && s.targetValue ≠ "" && pyStrip current = pyStrip s.targetValue
      | none => false
    if isMatch then
      { s with
        statusMsg := "设置已生效"
        active := false
        successShown := (s.pendingSuccess.getD "") ≠ ""
        pendingSuccess := none
        phase := PollerPhase.converged }
    else if s.attemptIdx = 0 then
      { s with
        attemptIdx := 1
        statusMsg := "最后一次刷新以确认设置..."
        phase := PollerPhase.awaitingSecond }
    else
      { s with
        active := false
        statusMsg := "设置可能未立即生效，可稍后手动刷新或尝试重启适配器"
        pendingSuccess := none
        phase := PollerPhase.gaveUpConverging }

/-- Drive the poller over a sequence of state reads, one per poll tick;
ticks only occur while a refresh is still scheduled (`active`). -/
def run_poller : PollerState → List (Option String) → PollerState
  | s, [] => s
  | s, r :: rs => if s.active then run_poller (pollTick s r) rs else s

/-!
## Auxiliary lemmas
-/

/-- Appending strings appends their character data. -/
theorem aux_string_data_append (a b : String) : (a ++ b).data = a.data ++ b.data := by
  cases a
  cases b
  rfl

/-- The two phase-specific restart failure messages can never coincide:
their first characters differ. -/
theorem aux_enable_ne_disable (a b : String) :
    "启用适配器失败: " ++ a ≠ "禁用适配器失败: " ++ b := by
  intro h
  have h2 : ("启用适配器失败: " ++ a).data.head? = ("禁用适配器失败: " ++ b).data.head? := by
    rw [h]
  have e1 : ("启用适配器失败: " ++ a).data.head? = some '启' := by
    cases a
    rfl
  have e2 : ("禁用适配器失败: " ++ b).data.head? = some '禁' := by
    cases b
    rfl
  rw [e1, e2] at h2
  simp at h2

/-- Python `x or y` is non-empty whenever `y` is. -/
theorem aux_optTruthyOr_ne_empty (o : Option String) (d : String) (hd : d ≠ "") :
    optTruthyOr o d ≠ "" := by
  unfold optTruthyOr
  cases o with
  | none => exact hd
  | some v =>
    by_cases hv : v = ""
    · simp [hv, hd]
    · simp [hv]

/-!
## Claim theorems
-/

/-- Claim C4: for every adapter name and display value, applying with
`is_admin = false` returns `(false, message)` where the message states
that administrator privilege is required, and issues zero external
commands. -/
theorem c4_apply_requires_admin (adapter_name speed_duplex : String)
    (run : String → Bool × String) :
    set_adapter_speed_duplex false adapter_name speed_duplex run
      = ((false, "需要管理员权限才能修改网络设置"), [])
    ∧ strContains "需要管理员权限才能修改网络设置" "管理员权限" = true :=
  ⟨rfl, by decide⟩

/-- Claim C5: whenever the adapter name or the display value is blank
after trimming, the apply operation returns a failing result and issues
zero external commands, for any privilege state and any runner. -/
theorem c5_apply_blank_inputs (is_admin : Bool) (adapter_name speed_duplex : String)
    (run : String → Bool × String)
    (h : pyStrip adapter_name = "" ∨ pyStrip speed_duplex = "") :
    (set_adapter_speed_duplex is_admin adapter_name speed_duplex run).1.1 = false
    ∧ (set_adapter_speed_duplex is_admin adapter_name speed_duplex run).2 = [] := by
  unfold set_adapter_speed_duplex
  cases is_admin with
  | false => simp
  | true =>
    rcases h with h | h
    · simp [h]
    · by_cases hn : (adapter_name = "" || pyStrip adapter_name = "") = true
      · simp [hn]
      · simp [hn, h]

/-- Witness for C5 at a whitespace-only adapter name. -/
theorem c5_apply_blank_inputs_witness :
    (set_adapter_speed_duplex true "   " "1.0 Gbps 全双工" (fun _ => (true, ""))).1.1 = false
    ∧ (set_adapter_speed_duplex true "   " "1.0 Gbps 全双工" (fun _ => (true, ""))).2 = [] :=
  c5_apply_blank_inputs true "   " "1.0 Gbps 全双工" (fun _ => (true, "")) (Or.inl (by decide))

/-- Claim C10: the state read used by the convergence poller is total:
a blank adapter name yields the sentinel `"Unknown"` with zero external
commands, and when every underlying query fails or returns blank output
the result is the sentinel `"Unknown"` (no exception escapes). -/
theorem c10_state_read_total (adapter_name : String) (run : String → Bool × String) :
    (pyStrip adapter_name = "" → get_current_speed_duplex adapter_name run = ("Unknown", []))
    ∧ ((∀ cmd, (run cmd).1 = false ∨ pyStrip (run cmd).2 = "") →
        (get_current_speed_duplex adapter_name run).1 = "Unknown") := by
  constructor
  · intro h
    unfold get_current_speed_duplex
    simp [h]
  · intro h
    unfold get_current_speed_duplex
    by_cases hb : (adapter_name = "" || pyStrip adapter_name = "") = true
    · simp [hb]
    · rcases h (current_query_registry (escapePs adapter_name)) with h1 | h1 <;>
        rcases h (current_query_display (escapePs adapter_name)) with h2 | h2 <;>
        simp [hb, h1, h2]

/-- Witness for C10: blank name, and an always-failing runner. -/
theorem c10_state_read_total_witness :
    get_current_speed_duplex " " (fun _ => (true, "x")) = ("Unknown", [])
    ∧ (get_current_speed_duplex "eth0" (fun _ => (false, ""))).1 = "Unknown" :=
  ⟨(c10_state_read_total " " (fun _ => (true, "x"))).1 (by decide),
   (c10_state_read_total "eth0" (fun _ => (false, ""))).2 (fun _ => Or.inl rfl)⟩

/-- Claim C2: with fallback allowed the option resolver never returns an
empty list; on query failure or blank output it returns exactly the fixed
six-entry default list; with fallback disallowed it returns `[]` whenever
the query fails. -/
theorem c2_option_resolver (adapter_name : String) (run : String → Bool × String) :
    get_speed_duplex_options adapter_name run true ≠ []
    ∧ DEFAULT_SPEED_DUPLEX_OPTIONS.length = 6
    ∧ (((run (options_query_cmd adapter_name)).1 = false
        ∨ parse_option_lines (run (options_query_cmd adapter_name)).2 = []) →
        get_speed_duplex_options adapter_name run true = DEFAULT_SPEED_DUPLEX_OPTIONS)
    ∧ ((run (options_query_cmd adapter_name)).1 = false →
        get_speed_duplex_options adapter_name run false = []) := by
  have hdef : DEFAULT_SPEED_DUPLEX_OPTIONS ≠ [] := by decide
  refine ⟨?_, rfl, ?_, ?_⟩
  · unfold get_speed_duplex_options
    by_cases hA : options_attempt adapter_name run = []
    · simp [hA, hdef]
    · simp [hA]
  · intro h
    have hA : options_attempt adapter_name run = [] := by
      unfold options_attempt
      by_cases hn : adapter_name = ""
      · simp [hn]
      · rcases h with h | h
        · simp [hn, h]
        · by_cases hr : (run (options_query_cmd adapter_name)).1 = true
          · simp [hn, hr, h]
          · simp [hn, hr]
    unfold get_speed_duplex_options
    simp [hA]
  · intro h
    have hA : options_attempt adapter_name run = [] := by
      unfold options_attempt
      by_cases hn : adapter_name = ""
      · simp [hn]
      · simp [hn, h]
    unfold get_speed_duplex_options
    simp [hA]

/-- Witness for C2 with an always-failing runner. -/
theorem c2_option_resolver_witness :
    get_speed_duplex_options "eth0" (fun _ => (false, "")) true = DEFAULT_SPEED_DUPLEX_OPTIONS
    ∧ get_speed_duplex_options "eth0" (fun _ => (false, "")) false = [] :=
  ⟨(c2_option_resolver "eth0" (fun _ => (false, ""))).2.2.1 (Or.inl rfl),
   (c2_option_resolver "eth0" (fun _ => (false, ""))).2.2.2 rfl⟩

/-- Claim C8: when the disable phase succeeds and the enable phase fails,
the restart returns `(false, message)` with the enable-phase message, and
that message can never equal a disable-phase failure message. -/
theorem c8_restart_partial_failure (adapter_name emsg : String)
    (run : String → Bool × String)
    (hd : (run (disable_cmd adapter_name)).1 = true)
    (he : run (enable_cmd adapter_name) = (false, emsg)) :
    restart_adapter true adapter_name run = (false, "启用适配器失败: " ++ emsg)
    ∧ ∀ m, "启用适配器失败: " ++ emsg ≠ "禁用适配器失败: " ++ m := by
  constructor
  · unfold restart_adapter
    simp [hd, he]
  · intro m
    exact aux_enable_ne_disable emsg m

/-- Witness for C8 with a runner that succeeds on disable and fails on
enable. -/
theorem c8_restart_partial_failure_witness :
    restart_adapter true "以太网"
        (fun c => if c = disable_cmd "以太网" then (true, "") else (false, "boom"))
      = (false, "启用适配器失败: boom")
    ∧ "启用适配器失败: boom" ≠ "禁用适配器失败: boom" :=
  let h := c8_restart_partial_failure "以太网" "boom"
    (fun c => if c = disable_cmd "以太网" then (true, "") else (false, "boom"))
    (by decide) (by decide)
  ⟨h.1, h.2 "boom"⟩

/-- Counterexample to C6 as stated: the adapter-module runner
(`_run_powershell_safe`), on a later candidate exiting non-zero with an
empty error stream and a non-empty output stream, reports the fixed text
`"PowerShell命令执行失败"` — not the process output stream. -/
theorem c6_safe_runner_ignores_stdout :
    run_powershell_safe ⟨true, CandOutcome.ran 1 "" ""⟩
        ⟨true, CandOutcome.ran 1 "details from stdout" ""⟩
        ⟨true, CandOutcome.ran 0 "" ""⟩ ⟨true, CandOutcome.ran 0 "" ""⟩
      = (false, "PowerShell命令执行失败")
    ∧ "PowerShell命令执行失败" ≠ "details from stdout"
    ∧ "PowerShell命令执行失败" ≠ "" :=
  ⟨rfl, by decide, by decide⟩

/-- Claim C6 (amended): a non-zero exit from the first candidate makes
both runners continue to the next candidate; a non-zero exit from a later
candidate makes the settings-module runner fail with the trimmed error
stream, else the trimmed output stream, else a fixed text, while the
adapter-module runner fails with the trimmed error stream or the fixed
text, never consulting the output stream. -/
theorem c6_runner_nonzero_exit (d : Bool) (rc : Int) (out err : String)
    (rest : List Cand) (c : Cand) :
    (rc ≠ 0 →
      run_ps_loop_settings true (⟨d, CandOutcome.ran rc out err⟩ :: rest)
        = run_ps_loop_settings false rest
      ∧ run_ps_loop_safe true (⟨d, CandOutcome.ran rc out err⟩ :: rest)
        = run_ps_loop_safe false rest)
    ∧ (rc ≠ 0 → c.onDisk = true → c.outcome = CandOutcome.ran rc out err →
      run_ps_loop_settings false (c :: rest)
        = (false, pyOrS (pyStrip err) (pyOrS (pyStrip out) "PowerShell命令执行失败"))
      ∧ run_ps_loop_safe false (c :: rest)
        = (false, pyOrS (pyStrip err) "PowerShell命令执行失败")) := by
  constructor
  · intro h
    constructor
    · simp [run_ps_loop_settings, h]
    · simp [run_ps_loop_safe, h]
  · intro h hd ho
    obtain ⟨dsk, oc⟩ := c
    simp only at hd ho
    subst hd
    subst ho
    constructor
    · simp [run_ps_loop_settings, h]
    · simp [run_ps_loop_safe, h]

/-- Witness for C6 at a concrete failing candidate. -/
theorem c6_runner_nonzero_exit_witness :
    (run_ps_loop_settings true [⟨true, CandOutcome.ran 1 "a" "b"⟩]
        = run_ps_loop_settings false []
      ∧ run_ps_loop_safe true [⟨true, CandOutcome.ran 1 "a" "b"⟩]
        = run_ps_loop_safe false [])
    ∧ (run_ps_loop_settings false [⟨true, CandOutcome.ran 1 "a" "b"⟩]
        = (false, pyOrS (pyStrip "b") (pyOrS (pyStrip "a") "PowerShell命令执行失败"))
      ∧ run_ps_loop_safe false [⟨true, CandOutcome.ran 1 "a" "b"⟩]
        = (false, pyOrS (pyStrip "b") "PowerShell命令执行失败")) :=
  let h := c6_runner_nonzero_exit true 1 "a" "b" [] ⟨true, CandOutcome.ran 1 "a" "b"⟩
  ⟨h.1 (by decide), h.2 (by decide) rfl rfl⟩

/-- Claim C7: when the primary strategy yields at least one accepted
adapter, enumeration returns that list and its result does not depend on
the WMI source at all; and when JSON decoding failed, the result is
exactly the WMI-fallback result, so the parse failure is never propagated
to the caller. -/
theorem c7_primary_short_circuit (ipOf speedOf duplexOf : String → String)
    (psOutput : String) (items : List PsItem)
    (wmiConn wmiConn2 : Except String (List WmiAdapter))
    (detailOk detailOk2 : WmiAdapter → Bool) :
    (psOutput ≠ "" →
      primary_adapters ipOf speedOf duplexOf true psOutput (some items) ≠ [] →
      get_all_adapters ipOf speedOf duplexOf true psOutput (some items) wmiConn detailOk
        = Except.ok (primary_adapters ipOf speedOf duplexOf true psOutput (some items))
      ∧ get_all_adapters ipOf speedOf duplexOf true psOutput (some items) wmiConn detailOk
        = get_all_adapters ipOf speedOf duplexOf true psOutput (some items) wmiConn2 detailOk2)
    ∧ (∀ psSuccess : Bool,
      get_all_adapters ipOf speedOf duplexOf psSuccess psOutput none wmiConn detailOk
        = wmi_fallback ipOf speedOf duplexOf wmiConn detailOk) := by
  constructor
  · intro _ hne
    unfold get_all_adapters
    simp [hne]
  · intro ps
    have hp : primary_adapters ipOf speedOf duplexOf ps psOutput none = [] := by
      unfold primary_adapters
      simp
    unfold get_all_adapters
    simp [hp]

/-- Witness for C7: one accepted adapter from the primary source, and a
parse failure routed to the fallback. -/
theorem c7_primary_short_circuit_witness :
    (get_all_adapters (fun _ => "Unknown") (fun _ => "Unknown") (fun _ => "Unknown")
        true "x"
        (some [PsItem.mk (some "以太网") (some "Realtek PCIe GbE")
          (some "AA-BB-CC-DD-EE-FF") (some "Up") (some "1 Gbps")])
        (Except.ok []) (fun _ => true)
      = Except.ok (primary_adapters (fun _ => "Unknown") (fun _ => "Unknown") (fun _ => "Unknown")
        true "x"
        (some [PsItem.mk (some "以太网") (some "Realtek PCIe GbE")
          (some "AA-BB-CC-DD-EE-FF") (some "Up") (some "1 Gbps")])))
    ∧ get_all_adapters (fun _ => "Unknown") (fun _ => "Unknown") (fun _ => "Unknown")
        false "x" none (Except.error "boom") (fun _ => true)
      = wmi_fallback (fun _ => "Unknown") (fun _ => "Unknown") (fun _ => "Unknown")
        (Except.error "boom") (fun _ => true) :=
  ⟨((c7_primary_short_circuit (fun _ => "Unknown") (fun _ => "Unknown") (fun _ => "Unknown")
      "x" [PsItem.mk (some "以太网") (some "Realtek PCIe GbE")
        (some "AA-BB-CC-DD-EE-FF") (some "Up") (some "1 Gbps")]
      (Except.ok []) (Except.error "e") (fun _ => true) (fun _ => false)).1
      (by decide) (by decide)).1,
   (c7_primary_short_circuit (fun _ => "Unknown") (fun _ => "Unknown") (fun _ => "Unknown")
      "x" [PsItem.mk (some "以太网") (some "Realtek PCIe GbE")
        (some "AA-BB-CC-DD-EE-FF") (some "Up") (some "1 Gbps")]
      (Except.error "boom") (Except.error "e") (fun _ => true) (fun _ => false)).2 false⟩

/-- Any adapter accepted by the primary-strategy item processing has a
non-empty alias, a non-empty MAC and a name avoiding the blacklist. -/
theorem aux_ps_item_invariant (ipOf speedOf duplexOf : String → String)
    (item : PsItem) (a : AdapterInfo)
    (h : ps_item_to_adapter ipOf speedOf duplexOf item = some a) :
    a.«alias» ≠ "" ∧ a.mac_address ≠ ""
    ∧ strContains a.name "Virtual" = false
    ∧ strContains a.name "Loopback" = false := by
  unfold ps_item_to_adapter at h
  simp only [] at h
  split_ifs at h with h1 h2 h3 <;>
    (injection h with h
     subst h
     simp only [Bool.or_eq_true, decide_eq_true_eq, not_or, Bool.not_eq_true] at h1 h2
     exact ⟨h1.1.1, h1.2, h2.1, h2.2⟩)

/-- Any adapter surviving the fallback filter and detail resolution has a
non-empty alias, a non-empty MAC and a name avoiding the blacklist. -/
theorem aux_wmi_invariant (ipOf speedOf duplexOf : String → String)
    (w : WmiAdapter) (hacc : wmi_accept w = true) :
    (wmi_adapter_details ipOf speedOf duplexOf w).«alias» ≠ ""
    ∧ (wmi_adapter_details ipOf speedOf duplexOf w).mac_address ≠ ""
    ∧ strContains (wmi_adapter_details ipOf speedOf duplexOf w).name "Virtual" = false
    ∧ strContains (wmi_adapter_details ipOf speedOf duplexOf w).name "Loopback" = false := by
  unfold wmi_accept at hacc
  simp only [Bool.and_eq_true, Bool.not_eq_true', decide_eq_true_eq] at hacc
  obtain ⟨⟨⟨⟨_, hname⟩, hmac⟩, hvirt⟩, hloop⟩ := hacc
  unfold wmi_adapter_details
  refine ⟨?_, hmac, hvirt, hloop⟩
  exact aux_optTruthyOr_ne_empty w.NetConnectionID (w.Name.getD "") hname

/-- Any adapter in the primary-strategy list satisfies the invariant. -/
theorem aux_primary_invariant (ipOf speedOf duplexOf : String → String)
    (psSuccess : Bool) (psOutput : String) (parsed : Option (List PsItem))
    (a : AdapterInfo)
    (ha : a ∈ primary_adapters ipOf speedOf duplexOf psSuccess psOutput parsed) :
    a.«alias» ≠ "" ∧ a.mac_address ≠ ""
    ∧ strContains a.name "Virtual" = false
    ∧ strContains a.name "Loopback" = false := by
  unfold primary_adapters at ha
  split at ha
  · cases parsed with
    | none => simp at ha
    | some items =>
      simp only at ha
      rw [List.mem_filterMap] at ha
      obtain ⟨item, _, hsome⟩ := ha
      exact aux_ps_item_invariant ipOf speedOf duplexOf item a hsome
  · simp at ha

/-- Claim C3 (amended): every adapter in any list returned by the
enumerator — from either strategy — has a non-empty alias, a non-empty
MAC address, and a name containing neither "Virtual" nor "Loopback".
(The MAC-address shape itself is not validated; see the
counterexample.) -/
theorem c3_adapter_invariants (ipOf speedOf duplexOf : String → String)
    (psSuccess : Bool) (psOutput : String) (parsed : Option (List PsItem))
    (wmiConn : Except String (List WmiAdapter)) (detailOk : WmiAdapter → Bool)
    (lst : List AdapterInfo) (a : AdapterInfo)
    (hres : get_all_adapters ipOf speedOf duplexOf psSuccess psOutput parsed wmiConn detailOk
      = Except.ok lst)
    (ha : a ∈ lst) :
    a.«alias» ≠ "" ∧ a.mac_address ≠ ""
    ∧ strContains a.name "Virtual" = false
    ∧ strContains a.name "Loopback" = false := by
  unfold get_all_adapters at hres
  simp only [] at hres
  split at hres
  · injection hres with hres
    subst hres
    exact aux_primary_invariant ipOf speedOf duplexOf psSuccess psOutput parsed a ha
  · unfold wmi_fallback at hres
    cases wmiConn with
    | error e => cases hres
    | ok lst0 =>
      injection hres with hres
      subst hres
      rw [List.mem_filterMap] at ha
      obtain ⟨w, hwmem, hw⟩ := ha
      have hacc : wmi_accept w = true := (List.mem_filter.mp hwmem).2
      split at hw
      · cases hw
        exact aux_wmi_invariant ipOf speedOf duplexOf w hacc
      · cases hw

/-- Witness for C3 at a concrete primary-strategy enumeration. -/
theorem c3_adapter_invariants_witness :
    (AdapterInfo.mk "Realtek PCIe GbE" "以太网" "AA-BB-CC-DD-EE-FF" "以太网" "Unknown"
        (some "Up") "1 Gbps" "Unknown").«alias» ≠ ""
    ∧ (AdapterInfo.mk "Realtek PCIe GbE" "以太网" "AA-BB-CC-DD-EE-FF" "以太网" "Unknown"
        (some "Up") "1 Gbps" "Unknown").mac_address ≠ ""
    ∧ strContains (AdapterInfo.mk "Realtek PCIe GbE" "以太网" "AA-BB-CC-DD-EE-FF" "以太网"
        "Unknown" (some "Up") "1 Gbps" "Unknown").name "Virtual" = false
    ∧ strContains (AdapterInfo.mk "Realtek PCIe GbE" "以太网" "AA-BB-CC-DD-EE-FF" "以太网"
        "Unknown" (some "Up") "1 Gbps" "Unknown").name "Loopback" = false :=
  c3_adapter_invariants (fun _ => "Unknown") (fun _ => "Unknown") (fun _ => "Unknown")
    true "x"
    (some [PsItem.mk (some "以太网") (some "Realtek PCIe GbE")
      (some "AA-BB-CC-DD-EE-FF") (some "Up") (some "1 Gbps")])
    (Except.ok []) (fun _ => true)
    [AdapterInfo.mk "Realtek PCIe GbE" "以太网" "AA-BB-CC-DD-EE-FF" "以太网" "Unknown"
      (some "Up") "1 Gbps" "Unknown"]
    (AdapterInfo.mk "Realtek PCIe GbE" "以太网" "AA-BB-CC-DD-EE-FF" "以太网" "Unknown"
      (some "Up") "1 Gbps" "Unknown")
    rfl (List.mem_singleton.mpr rfl)

/-- Counterexample to C3 as stated: the enumerator accepts an item whose
MAC field is the non-MAC-shaped string "XYZ" and returns it to the
caller — only non-emptiness is checked, never a MAC-address shape. -/
theorem c3_mac_shape_counterexample :
    get_all_adapters (fun _ => "Unknown") (fun _ => "Unknown") (fun _ => "Unknown")
        true "x"
        (some [PsItem.mk (some "eth0") (some "FakeCard NIC") (some "XYZ") none
          (some "1 Gbps")])
        (Except.ok []) (fun _ => true)
      = Except.ok [AdapterInfo.mk "FakeCard NIC" "eth0" "XYZ" "eth0" "Unknown" none
          "1 Gbps" "Unknown"]
    ∧ matchesMacShape "XYZ" = false :=
  ⟨rfl, by decide⟩

/-- Claim C9: `get_adapter_by_name` is a case-insensitive substring
search over the enumerated list: it returns `none` exactly when no
adapter name contains the query ignoring case, and any hit is the first
match in enumeration order. -/
theorem c9_get_adapter_by_name (adapters : List AdapterInfo) (name : String) :
    (get_adapter_by_name adapters name = none ↔
      ∀ a ∈ adapters, strContains (pyLower a.name) (pyLower name) = false)
    ∧ ∀ a, get_adapter_by_name adapters name = some a →
      strContains (pyLower a.name) (pyLower name) = true
      ∧ ∃ pre post, adapters = pre ++ a :: post
        ∧ ∀ b ∈ pre, strContains (pyLower b.name) (pyLower name) = false := by
  constructor
  · unfold get_adapter_by_name
    rw [List.find?_eq_none]
    constructor
    · intro h a ha
      have := h a ha
      simpa using this
    · intro h a ha
      simp [h a ha]
  · intro a hfind
    unfold get_adapter_by_name at hfind
    rw [List.find?_eq_some] at hfind
    obtain ⟨hpa, pre, post, heq, hall⟩ := hfind
    refine ⟨hpa, pre, post, heq, ?_⟩
    intro b hb
    have := hall b hb
    simpa using this

/-- Witness for C9: a one-element list hit by a lower-cased query, and
the empty list yielding `none`. -/
theorem c9_get_adapter_by_name_witness :
    strContains
        (pyLower (AdapterInfo.mk "Realtek PCIe GbE Family Controller" "以太网"
          "AA-BB-CC-DD-EE-FF" "以太网" "Unknown" (some "Up") "1 Gbps" "Unknown").name)
        (pyLower "realtek") = true
    ∧ get_adapter_by_name [] "realtek" = none :=
  ⟨((c9_get_adapter_by_name
      [AdapterInfo.mk "Realtek PCIe GbE Family Controller" "以太网"
        "AA-BB-CC-DD-EE-FF" "以太网" "Unknown" (some "Up") "1 Gbps" "Unknown"]
      "realtek").2
      (AdapterInfo.mk "Realtek PCIe GbE Family Controller" "以太网"
        "AA-BB-CC-DD-EE-FF" "以太网" "Unknown" (some "Up") "1 Gbps" "Unknown")
      (by decide)).1,
   (c9_get_adapter_by_name [] "realtek").1.mpr (by simp)⟩

/-- Once the poller is inactive, further poll ticks change nothing. -/
theorem aux_run_poller_inactive (s : PollerState) (l : List (Option String))
    (h : s.active = false) : run_poller s l = s := by
  cases l with
  | nil => rfl
  | cons r rs =>
    unfold run_poller
    simp [h]

/-- Counterexample to C1 as stated: on the spec scenario — reads
`["100 Mbps Half", "100 Mbps Half", "1.0 Gbps Full"]` with target
`"1.0 Gbps Full"` — the poller exhausts its two attempts before the third
read is ever sampled, ends gave-up and never shows the success message,
instead of converging on the third read. -/
theorem c1_scenario_gives_up :
    (run_poller (start_polling true "ok" [] "以太网" "1.0 Gbps Full" init_poller_state)
        [some "100 Mbps Half", some "100 Mbps Half", some "1.0 Gbps Full"]).phase
      = PollerPhase.gaveUpConverging
    ∧ (run_poller (start_polling true "ok" [] "以太网" "1.0 Gbps Full" init_poller_state)
        [some "100 Mbps Half", some "100 Mbps Half", some "1.0 Gbps Full"]).successShown
      = false :=
  ⟨rfl, rfl⟩

/-- Claim C1 (amended): the poller samples at most two reads.  With reads
`["100 Mbps Half", "1.0 Gbps Full"]` and target `"1.0 Gbps Full"` it
converges on the second read and shows the success message; and for any
read sequence whose trimmed reads never equal the trimmed target, it ends
gave-up after its two attempts, does not report the operation as failed,
and does not show (indeed clears) the pending success message. -/
theorem c1_convergence_poller :
    ((run_poller (start_polling true "ok" [] "以太网" "1.0 Gbps Full" init_poller_state)
        [some "100 Mbps Half", some "1.0 Gbps Full"]).phase = PollerPhase.converged
      ∧ (run_poller (start_polling true "ok" [] "以太网" "1.0 Gbps Full" init_poller_state)
        [some "100 Mbps Half", some "1.0 Gbps Full"]).successShown = true)
    ∧ ∀ (message aliasv target : String) (r1 r2 : Option String)
        (rest : List (Option String)),
        aliasv ≠ "" → target ≠ "" →
        (∀ r ∈ r1 :: r2 :: rest, ∀ c, r = some c → pyStrip c ≠ pyStrip target) →
        (run_poller (start_polling true message [] aliasv target init_poller_state)
            (r1 :: r2 :: rest)).phase = PollerPhase.gaveUpConverging
        ∧ (run_poller (start_polling true message [] aliasv target init_poller_state)
            (r1 :: r2 :: rest)).failureShown = false
        ∧ (run_poller (start_polling true message [] aliasv target init_poller_state)
            (r1 :: r2 :: rest)).successShown = false
        ∧ (run_poller (start_polling true message [] aliasv target init_poller_state)
            (r1 :: r2 :: rest)).pendingSuccess = none := by
  constructor
  · exact ⟨rfl, rfl⟩
  · intro message aliasv target r1 r2 rest ha ht hnm
    rcases r1 with _ | c1 <;> rcases r2 with _ | c2
    · simp [run_poller, pollTick, start_polling, init_poller_state, ha, ht,
        aux_run_poller_inactive]
    · have hc2 : pyStrip c2 ≠ pyStrip target := hnm (some c2) (by simp) c2 rfl
      simp [run_poller, pollTick, start_polling, init_poller_state, ha, ht, hc2,
        aux_run_poller_inactive]
    · have hc1 : pyStrip c1 ≠ pyStrip target := hnm (some c1) (by simp) c1 rfl
      simp [run_poller, pollTick, start_polling, init_poller_state, ha, ht, hc1,
        aux_run_poller_inactive]
    · have hc1 : pyStrip c1 ≠ pyStrip target := hnm (some c1) (by simp) c1 rfl
      have hc2 : pyStrip c2 ≠ pyStrip target := hnm (some c2) (by simp) c2 rfl
      simp [run_poller, pollTick, start_polling, init_poller_state, ha, ht, hc1, hc2,
        aux_run_poller_inactive]

/-- Witness for C1 at a concrete never-matching read sequence. -/
theorem c1_convergence_poller_witness :
    (run_poller (start_polling true "ok" [] "以太网" "1.0 Gbps Full" init_poller_state)
        [some "100 Mbps Half", none]).phase = PollerPhase.gaveUpConverging
    ∧ (run_poller (start_polling true "ok" [] "以太网" "1.0 Gbps Full" init_poller_state)
        [some "100 Mbps Half", none]).failureShown = false
    ∧ (run_poller (start_polling true "ok" [] "以太网" "1.0 Gbps Full" init_poller_state)
        [some "100 Mbps Half", none]).successShown = false
    ∧ (run_poller (start_polling true "ok" [] "以太网" "1.0 Gbps Full" init_poller_state)
        [some "100 Mbps Half", none]).pendingSuccess = none :=
  (c1_convergence_poller).2 "ok" "以太网" "1.0 Gbps Full"
    (some "100 Mbps Half") none [] (by decide) (by decide)
    (by
      intro r hr c hc
      simp only [List.mem_cons, List.not_mem_nil, or_false] at hr
      rcases hr with hr | hr <;> subst hr
      · injection hc with hc
        subst hc
        decide
      · cases hc)

end NetAdapterTool
